import Mathlib

/-!
Verification of the PitchCraft DCF valuation core: the assumption resolver
(`question_generator.create_assumptions_from_answers`), the projection engine
(the direct numeric computation in `web/api.generate_dcf`), the named-reference
registry and formula-graph builder (`models/dcf_professional.ProfessionalDCFModel`),
and the workbook assembler (`ProfessionalDCFModel.generate`).

Real ("float") arithmetic of the source is modelled by `ℝ`; Python's `**` on a
positive base is modelled by `Real.rpow`.
-/

set_option maxHeartbeats 1000000

noncomputable section

open Real

/-- Financial snapshot consumed by the core, from `data/sec_fetcher.CompanyFinancials`. -/
structure CompanyFinancials where
  ticker : String
  name : String
  cik : String
  revenue : List ℝ
  revenue_years : List ℤ
  ebitda : List ℝ
  net_income : List ℝ
  total_assets : ℝ
  total_debt : ℝ
  cash : ℝ
  shares_outstanding : ℝ
  ebitda_margin : ℝ
  revenue_growth : List ℝ

/-- Assumption record, from `core/question_generator.DCFAssumptions`. -/
structure DCFAssumptions where
  company_name : String
  ticker : String
  base_revenue : ℝ
  revenue_growth_y1 : ℝ
  revenue_growth_y2 : ℝ
  revenue_growth_y3 : ℝ
  revenue_growth_y4 : ℝ
  revenue_growth_y5 : ℝ
  ebitda_margin : ℝ
  ebitda_margin_y5 : ℝ
  da_pct_revenue : ℝ
  capex_pct_revenue : ℝ
  maintenance_capex_pct : ℝ
  sbc_pct_revenue : ℝ
  days_sales_outstanding : ℝ
  days_inventory_outstanding : ℝ
  days_payables_outstanding : ℝ
  other_working_capital_pct : ℝ
  tax_rate : ℝ
  nol_balance : ℝ
  risk_free_rate : ℝ
  equity_risk_premium : ℝ
  unlevered_beta : ℝ
  size_premium : ℝ
  company_specific_risk : ℝ
  pre_tax_cost_of_debt : ℝ
  target_debt_to_equity : ℝ
  terminal_growth : ℝ
  exit_ebitda_multiple : ℝ
  exit_revenue_multiple : ℝ
  total_debt : ℝ
  cash : ℝ
  minority_interest : ℝ
  preferred_stock : ℝ
  shares_outstanding : ℝ
  options_dilution : ℝ
  use_mid_year_convention : Bool := true
  projection_years : ℕ := 5

/-- The answers mapping handed to the assumption resolver
(`Dict[str, Any]` of assumption-id to numeric value in the source). -/
def Answers : Type := List (String × ℝ)

/-- `answers.get(key, default)` of the source. -/
def answerGet (m : Answers) (k : String) (d : ℝ) : ℝ :=
  (List.lookup k (m : List (String × ℝ))).getD d

/-- The assumption resolver,
`QuestionGenerator.create_assumptions_from_answers` (question_generator.py 455-512). -/
def createAssumptionsFromAnswers (fin : CompanyFinancials) (answers : Answers) :
    DCFAssumptions :=
  { company_name := fin.name
    ticker := fin.ticker
    base_revenue := fin.revenue.getLast?.getD 0
    revenue_growth_y1 := answerGet answers "revenue_growth_y1" 0.10
    revenue_growth_y2 := answerGet answers "revenue_growth_y2" 0.08
    revenue_growth_y3 := answerGet answers "revenue_growth_y3" 0.06
    revenue_growth_y4 := answerGet answers "revenue_growth_y4" 0.05
    revenue_growth_y5 := answerGet answers "revenue_growth_y5" 0.04
    ebitda_margin := answerGet answers "ebitda_margin"
      (if fin.ebitda_margin < 0.80 then fin.ebitda_margin else 0.25)
    ebitda_margin_y5 := answerGet answers "ebitda_margin_y5" 0.28
    da_pct_revenue := answerGet answers "da_pct_revenue" 0.04
    capex_pct_revenue := answerGet answers "capex_pct_revenue" 0.05
    maintenance_capex_pct := answerGet answers "maintenance_capex_pct" 0.60
    sbc_pct_revenue := answerGet answers "sbc_pct_revenue" 0.08
    days_sales_outstanding := answerGet answers "days_sales_outstanding" 45
    days_inventory_outstanding := answerGet answers "days_inventory_outstanding" 15
    days_payables_outstanding := answerGet answers "days_payables_outstanding" 35
    other_working_capital_pct := 0.02
    tax_rate := answerGet answers "tax_rate" 0.24
    nol_balance := answerGet answers "nol_balance" 0
    risk_free_rate := answerGet answers "risk_free_rate" 0.043
    equity_risk_premium := answerGet answers "equity_risk_premium" 0.055
    unlevered_beta := answerGet answers "unlevered_beta" 1.0
    size_premium := answerGet answers "size_premium" 0.01
    company_specific_risk := answerGet answers "company_specific_risk" 0.01
    pre_tax_cost_of_debt := answerGet answers "pre_tax_cost_of_debt" 0.065
    target_debt_to_equity := answerGet answers "target_debt_to_equity" 0.25
    terminal_growth := answerGet answers "terminal_growth" 0.025
    exit_ebitda_multiple := answerGet answers "exit_ebitda_multiple" 12.0
    exit_revenue_multiple := answerGet answers "exit_revenue_multiple" 3.0
    total_debt := fin.total_debt
    cash := fin.cash
    minority_interest := answerGet answers "minority_interest" 0
    preferred_stock := 0
    shares_outstanding := fin.shares_outstanding
    options_dilution := answerGet answers "options_dilution" 0.03
    use_mid_year_convention := true
    projection_years := 5 }

/-!
The projection engine: the direct numeric computation of `web/api.generate_dcf`
(api.py 193-309).
-/
namespace Engine

variable (a : DCFAssumptions)

/-- `levered_beta` (api.py 193). -/
def leveredBeta : ℝ :=
  a.unlevered_beta * (1 + (1 - a.tax_rate) * a.target_debt_to_equity)

/-- `cost_of_equity` (api.py 194-197). -/
def costOfEquity : ℝ :=
  a.risk_free_rate + leveredBeta a * a.equity_risk_premium +
    a.size_premium + a.company_specific_risk

/-- `after_tax_cost_of_debt` (api.py 198). -/
def afterTaxCostOfDebt : ℝ := a.pre_tax_cost_of_debt * (1 - a.tax_rate)

/-- `debt_weight` (api.py 199). -/
def debtWeight : ℝ := a.target_debt_to_equity / (1 + a.target_debt_to_equity)

/-- `equity_weight` (api.py 200). -/
def equityWeight : ℝ := 1 - debtWeight a

/-- `wacc` (api.py 201). -/
def wacc : ℝ :=
  equityWeight a * costOfEquity a + debtWeight a * afterTaxCostOfDebt a

/-- `growth_rates` (api.py 205-211): growth for forecast years 1..5, as indexed
by the revenue loop. -/
def growth : ℕ → ℝ
  | 1 => a.revenue_growth_y1
  | 2 => a.revenue_growth_y2
  | 3 => a.revenue_growth_y3
  | 4 => a.revenue_growth_y4
  | 5 => a.revenue_growth_y5
  | _ => 0

/-- `revenues` (api.py 204-213): base revenue, then the forward recurrence. -/
def revenue : ℕ → ℝ
  | 0 => a.base_revenue
  | i + 1 => revenue i * (1 + growth a (i + 1))

/-- `margin_delta` (api.py 218). -/
def marginDelta : ℝ := (a.ebitda_margin_y5 - a.ebitda_margin) / 5

/-- `margins` (api.py 219). -/
def margin (i : ℕ) : ℝ := a.ebitda_margin + marginDelta a * i

/-- `ebitdas` (api.py 220). -/
def ebitda (i : ℕ) : ℝ := revenue a i * margin a i

/-- `ccc` and `nwc_pct` (api.py 225-226). -/
def nwcPct : ℝ :=
  (a.days_sales_outstanding + a.days_inventory_outstanding -
    a.days_payables_outstanding) / 365

/-- `da` inside the FCF loop (api.py 231). -/
def da (i : ℕ) : ℝ := revenue a i * a.da_pct_revenue

/-- `ebit` (api.py 232). -/
def ebit (i : ℕ) : ℝ := ebitda a i - da a i

/-- `nopat` (api.py 233): `ebit * (1 - tax_rate)`, with no clamping of losses. -/
def nopat (i : ℕ) : ℝ := ebit a i * (1 - a.tax_rate)

/-- `capex` (api.py 234). -/
def capex (i : ℕ) : ℝ := revenue a i * a.capex_pct_revenue

/-- `nwc_change` (api.py 236-239). -/
def nwcChange (i : ℕ) : ℝ :=
  if i = 0 then 0 else (revenue a i - revenue a (i - 1)) * nwcPct a

/-- `fcf` (api.py 241). -/
def fcf (i : ℕ) : ℝ := nopat a i + da a i - capex a i - nwcChange a i

/-- `discount_period` (api.py 247). -/
def discountPeriod (i : ℕ) : ℝ :=
  if a.use_mid_year_convention then (i : ℝ) - 0.5 else (i : ℝ)

/-- `df` (api.py 248), Python `**` on the positive base `1+wacc` as `rpow`. -/
def discountFactor (i : ℕ) : ℝ := 1 / (1 + wacc a) ^ (discountPeriod a i)

/-- `pv_fcfs` entries (api.py 249). -/
def pvFcf (i : ℕ) : ℝ := fcf a i * discountFactor a i

/-- `sum_pv_fcf` (api.py 251): the loop runs i = 1..5. -/
def sumPvFcf : ℝ := ∑ i ∈ Finset.range 5, pvFcf a (i + 1)

/-- `tv_gordon` (api.py 254), as the real-valued expression. -/
def tvGordon : ℝ :=
  fcf a 5 * (1 + a.terminal_growth) / (wacc a - a.terminal_growth)

/-- `tv_gordon` as executed: Python float division raises `ZeroDivisionError`
when `wacc - terminal_growth` is zero, so the run produces no value there. -/
def tvGordonRun : Option ℝ :=
  if wacc a - a.terminal_growth = 0 then none else some (tvGordon a)

/-- `tv_exit` (api.py 255). -/
def tvExit : ℝ := ebitda a 5 * a.exit_ebitda_multiple

/-- `pv_tv_gordon` (api.py 257): the exponent is the integer literal 5. -/
def pvTvGordon : ℝ := tvGordon a / (1 + wacc a) ^ (5 : ℕ)

/-- `pv_tv_exit` (api.py 258): the exponent is the integer literal 5. -/
def pvTvExit : ℝ := tvExit a / (1 + wacc a) ^ (5 : ℕ)

/-- `ev_gordon` (api.py 260). -/
def evGordon : ℝ := sumPvFcf a + pvTvGordon a

/-- `ev_exit` (api.py 261). -/
def evExit : ℝ := sumPvFcf a + pvTvExit a

/-- `net_debt` (api.py 264). -/
def netDebt : ℝ := a.total_debt - a.cash

/-- `equity_gordon` (api.py 265). -/
def equityGordon : ℝ := evGordon a - netDebt a - a.minority_interest

/-- `equity_exit` (api.py 266). -/
def equityExit : ℝ := evExit a - netDebt a - a.minority_interest

/-- `diluted_shares` (api.py 269). -/
def dilutedShares : ℝ := a.shares_outstanding * (1 + a.options_dilution)

/-- `price_gordon` (api.py 271). -/
def priceGordon : ℝ :=
  if dilutedShares a > 0 then equityGordon a / dilutedShares a else 0

/-- `price_exit` (api.py 272). -/
def priceExit : ℝ :=
  if dilutedShares a > 0 then equityExit a / dilutedShares a else 0

/-- Status of the "WACC > Terminal Growth" validation entry (api.py 279-283). -/
def waccGtGrowthStatus : String :=
  if wacc a > a.terminal_growth then "pass" else "fail"

end Engine

/-!
The formula-graph builder's emitted formulas, as evaluated by a spreadsheet
engine on the generated workbook (`models/dcf_professional.ProfessionalDCFModel`).
Each definition is the arithmetic meaning of the formula string the builder
writes into the named cell.
-/
namespace Workbook

variable (a : DCFAssumptions)

/-- Row 5 of `Revenue_Build` (dcf_professional.py 392-400): column B links
`Key_Assumptions!base_revenue`; each later column is
`prev * (1 + growth_of_that_year)` via the row-4 growth links. -/
def revenue : ℕ → ℝ
  | 0 => a.base_revenue
  | i + 1 => revenue i * (1 + Engine.growth a (i + 1))

/-- Row 5 of `EBITDA_Bridge` (dcf_professional.py 438-442): every one of the
six year columns holds the same link `=Key_Assumptions!ebitda_margin`. -/
def margin (_i : ℕ) : ℝ := a.ebitda_margin

/-- Row 6 of `EBITDA_Bridge` (dcf_professional.py 445-450): revenue times the
margin cell of the same column. -/
def ebitda (i : ℕ) : ℝ := revenue a i * margin a i

/-- Row 5 of `D&A` (dcf_professional.py 470-474): `=-Revenue * da_pct`
(stored negative). -/
def daRow (i : ℕ) : ℝ := -(revenue a i * a.da_pct_revenue)

/-- Row 4 of `Taxes` (dcf_professional.py 547-551): `=EBITDA_Bridge + D&A`
(the D&A cell is negative). -/
def ebit (i : ℕ) : ℝ := ebitda a i + daRow a i

/-- Row 6 of `Taxes` (dcf_professional.py 559-563):
`=-MAX(0, EBIT) * tax_rate` — losses are clamped to zero tax. -/
def taxesRow (i : ℕ) : ℝ := -(max 0 (ebit a i) * a.tax_rate)

/-- `Key_Assumptions` net debt input cell (dcf_professional.py 345-346):
the builder precomputes `total_debt - cash`. -/
def netDebt : ℝ := a.total_debt - a.cash

/-- `DCF_Valuation` Gordon equity value (dcf_professional.py 795-805):
enterprise value less net debt only — no minority-interest line exists. -/
def equityGordonOf (ev : ℝ) : ℝ := ev - netDebt a

/-- `DCF_Valuation` implied share price (dcf_professional.py 807-812):
equity divided by `Key_Assumptions!shares`, the undiluted share count. -/
def impliedSharePriceOf (equity : ℝ) : ℝ := equity / a.shares_outstanding

/-- `Terminal_Value` PV rows (dcf_professional.py 716-723): the emitted
exponent is `IF(mid_year=1,5,5)`, which evaluates to 5 in both branches. -/
def tvDiscountExponent : ℝ := if a.use_mid_year_convention then 5 else 5

end Workbook

/-!
The named-reference registry of the formula-graph builder:
`ProfessionalDCFModel._cell_refs` with `_ref` (dcf_professional.py 139-141)
and its use in `build_inputs_index_sheet` (dcf_professional.py 236-239).
-/

/-- The registry: logical name to cell-address mapping (`self._cell_refs`). -/
def CellRefs : Type := List (String × String)

/-- `_ref` (dcf_professional.py 139-141): `self._cell_refs.get(name, "")`. -/
def ref (refs : CellRefs) (name : String) : String :=
  (List.lookup name (refs : List (String × String))).getD ""

/-- The value cell written for one row of the Inputs_Index sheet
(dcf_professional.py 238): the formula string when the lookup is non-empty,
the em-dash label otherwise. -/
def inputsIndexCell (refs : CellRefs) (sheet name : String) : String :=
  if ref refs name = "" then "—" else "=" ++ sheet ++ "!" ++ ref refs name

/-!
The workbook assembler: `ProfessionalDCFModel.TAB_ORDER` (dcf_professional.py
18-49) and the final reordering plus active-sheet selection in `generate`
(dcf_professional.py 1056-1059).
-/

/-- `ProfessionalDCFModel.TAB_ORDER` (dcf_professional.py 18-49). -/
def TAB_ORDER : List String :=
  [ "Cover", "Contents", "Inputs_Index", "Key_Assumptions",
    "Historical_IS", "Historical_BS", "Historical_CF",
    "Revenue_Build", "COGS_Gross_Margin", "Opex", "EBITDA_Bridge",
    "D&A", "Capex", "Working_Capital", "Other_Operating", "Taxes",
    "Unlevered_FCF", "Debt_Schedule", "Interest_Expense", "Share_Count",
    "WACC", "DCF_Valuation", "Terminal_Value", "EV_Equity_Bridge",
    "Sensitivity", "Scenario_Manager", "KPI_Dashboard",
    "Trading_Comps", "Transactions_Comps", "Charts_Checks" ]

/-- The thirty sheets a full build creates, one constructor per worksheet
title of the generated workbook. -/
inductive Tab where
  | cover | contents | inputsIndex | keyAssumptions
  | historicalIS | historicalBS | historicalCF
  | revenueBuild | cogsGrossMargin | opexTab | ebitdaBridge
  | dAndA | capexTab | workingCapital | otherOperating | taxesTab
  | unleveredFCF | debtSchedule | interestExpense | shareCount
  | waccTab | dcfValuation | terminalValue | evEquityBridge
  | sensitivityTab | scenarioManager | kpiDashboard
  | tradingComps | transactionsComps | chartsChecks
  deriving DecidableEq, Fintype

/-- Worksheet title (`s.title` of the openpyxl sheet) of each built tab. -/
def Tab.title : Tab → String
  | .cover => "Cover"
  | .contents => "Contents"
  | .inputsIndex => "Inputs_Index"
  | .keyAssumptions => "Key_Assumptions"
  | .historicalIS => "Historical_IS"
  | .historicalBS => "Historical_BS"
  | .historicalCF => "Historical_CF"
  | .revenueBuild => "Revenue_Build"
  | .cogsGrossMargin => "COGS_Gross_Margin"
  | .opexTab => "Opex"
  | .ebitdaBridge => "EBITDA_Bridge"
  | .dAndA => "D&A"
  | .capexTab => "Capex"
  | .workingCapital => "Working_Capital"
  | .otherOperating => "Other_Operating"
  | .taxesTab => "Taxes"
  | .unleveredFCF => "Unlevered_FCF"
  | .debtSchedule => "Debt_Schedule"
  | .interestExpense => "Interest_Expense"
  | .shareCount => "Share_Count"
  | .waccTab => "WACC"
  | .dcfValuation => "DCF_Valuation"
  | .terminalValue => "Terminal_Value"
  | .evEquityBridge => "EV_Equity_Bridge"
  | .sensitivityTab => "Sensitivity"
  | .scenarioManager => "Scenario_Manager"
  | .kpiDashboard => "KPI_Dashboard"
  | .tradingComps => "Trading_Comps"
  | .transactionsComps => "Transactions_Comps"
  | .chartsChecks => "Charts_Checks"

/-- The canonical tab sequence: the thirty tabs in `TAB_ORDER` order. -/
def tabOrderTabs : List Tab :=
  [ .cover, .contents, .inputsIndex, .keyAssumptions,
    .historicalIS, .historicalBS, .historicalCF,
    .revenueBuild, .cogsGrossMargin, .opexTab, .ebitdaBridge,
    .dAndA, .capexTab, .workingCapital, .otherOperating, .taxesTab,
    .unleveredFCF, .debtSchedule, .interestExpense, .shareCount,
    .waccTab, .dcfValuation, .terminalValue, .evEquityBridge,
    .sensitivityTab, .scenarioManager, .kpiDashboard,
    .tradingComps, .transactionsComps, .chartsChecks ]

/-- The sort key of `generate` (dcf_professional.py 1056):
`TAB_ORDER.index(s.title)`. -/
def sortKey (t : Tab) : ℕ := TAB_ORDER.indexOf t.title

/-- The assembler's reordering (dcf_professional.py 1056):
`self.wb._sheets.sort(key=lambda s: self.TAB_ORDER.index(s.title))`,
a stable sort by the `TAB_ORDER` position of the title. -/
def assembleSheets (sheets : List Tab) : List Tab :=
  sheets.mergeSort (fun s t => decide (sortKey s ≤ sortKey t))

/-- The assembler's active-sheet selection (dcf_professional.py 1059):
`self.wb.active = self.wb["Cover"]`, unconditionally the Cover sheet. -/
def activeSheet : Tab := Tab.cover

/-!
Concrete assumption records used to settle the claims. `flatRec` is a simple
valid record: flat revenue, flat 30% margin, WACC buildup resolving to 10%
(risk-free 5% plus unlevered beta 1 times 5% ERP, no debt), terminal growth
2%, 100 undiluted shares.
-/

/-- A simple valid assumption record with flat growth and WACC = 10%. -/
def flatRec : DCFAssumptions :=
  { company_name := "Test Corp"
    ticker := "TEST"
    base_revenue := 1000
    revenue_growth_y1 := 0
    revenue_growth_y2 := 0
    revenue_growth_y3 := 0
    revenue_growth_y4 := 0
    revenue_growth_y5 := 0
    ebitda_margin := 0.30
    ebitda_margin_y5 := 0.30
    da_pct_revenue := 0.10
    capex_pct_revenue := 0
    maintenance_capex_pct := 0.60
    sbc_pct_revenue := 0.08
    days_sales_outstanding := 0
    days_inventory_outstanding := 0
    days_payables_outstanding := 0
    other_working_capital_pct := 0.02
    tax_rate := 0
    nol_balance := 0
    risk_free_rate := 0.05
    equity_risk_premium := 0.05
    unlevered_beta := 1
    size_premium := 0
    company_specific_risk := 0
    pre_tax_cost_of_debt := 0.06
    target_debt_to_equity := 0
    terminal_growth := 0.02
    exit_ebitda_multiple := 10
    exit_revenue_multiple := 3
    total_debt := 0
    cash := 0
    minority_interest := 0
    preferred_stock := 0
    shares_outstanding := 100
    options_dilution := 0
    use_mid_year_convention := true
    projection_years := 5 }

/-- C1 input: margin glide 25% to 28%, otherwise `flatRec`. -/
def recC1 : DCFAssumptions :=
  { flatRec with ebitda_margin := 0.25, ebitda_margin_y5 := 0.28 }

/-- C2 input: zero margin and 10% D&A give EBIT = -100 every forecast year;
25% tax rate. -/
def recC2 : DCFAssumptions :=
  { flatRec with ebitda_margin := 0, ebitda_margin_y5 := 0, tax_rate := 0.25 }

/-- C3 input with terminal growth 12%, strictly above the 10% WACC. -/
def recC3a : DCFAssumptions := { flatRec with terminal_growth := 0.12 }

/-- C3 input with terminal growth exactly equal to the 10% WACC. -/
def recC3b : DCFAssumptions := { flatRec with terminal_growth := 0.10 }

/-- C4 input: zero shares outstanding, hence zero diluted shares. -/
def recC4 : DCFAssumptions := { flatRec with shares_outstanding := 0 }

/-- C4 witness input: negative share count, so diluted shares is not positive. -/
def recC4w : DCFAssumptions := { flatRec with shares_outstanding := -4 }

/-- C5 input: `flatRec` itself; its mid-year convention switch is on. -/
def recC5 : DCFAssumptions := flatRec

/-- C5 witness input: the mid-year convention switched off. -/
def recC5w : DCFAssumptions := { flatRec with use_mid_year_convention := false }

/-- C7 input: a snapshot whose historical revenue series is empty. -/
def emptyRevenueSnapshot : CompanyFinancials :=
  { ticker := "EMPT"
    name := "Empty Co"
    cik := "0000000000"
    revenue := []
    revenue_years := []
    ebitda := []
    net_income := []
    total_assets := 0
    total_debt := 50
    cash := 10
    shares_outstanding := 100
    ebitda_margin := 0.2
    revenue_growth := [] }

/-- C8 input: heavy D&A and capex with zero margin make FCF[5] = -100 < 0. -/
def recC8 : DCFAssumptions :=
  { flatRec with ebitda_margin := 0, ebitda_margin_y5 := 0,
                 da_pct_revenue := 0.5, capex_pct_revenue := 0.1 }

/-- The record `a` with its terminal growth rate replaced, holding every other
assumption fixed. -/
def withTerminalGrowth (a : DCFAssumptions) (g : ℝ) : DCFAssumptions :=
  { a with terminal_growth := g }

/-- Position of each tab in the canonical order, written out directly. -/
def tabIdx : Tab → ℕ
  | .cover => 0
  | .contents => 1
  | .inputsIndex => 2
  | .keyAssumptions => 3
  | .historicalIS => 4
  | .historicalBS => 5
  | .historicalCF => 6
  | .revenueBuild => 7
  | .cogsGrossMargin => 8
  | .opexTab => 9
  | .ebitdaBridge => 10
  | .dAndA => 11
  | .capexTab => 12
  | .workingCapital => 13
  | .otherOperating => 14
  | .taxesTab => 15
  | .unleveredFCF => 16
  | .debtSchedule => 17
  | .interestExpense => 18
  | .shareCount => 19
  | .waccTab => 20
  | .dcfValuation => 21
  | .terminalValue => 22
  | .evEquityBridge => 23
  | .sensitivityTab => 24
  | .scenarioManager => 25
  | .kpiDashboard => 26
  | .tradingComps => 27
  | .transactionsComps => 28
  | .chartsChecks => 29

/-!
Theorems.
-/

theorem sortKey_eq_tabIdx : ∀ t : Tab, sortKey t = tabIdx t := by
  intro t
  cases t <;> rfl

theorem tabIdx_inj : ∀ s t : Tab, tabIdx s = tabIdx t → s = t := by
  decide

instance : IsAntisymm Tab (fun s t => sortKey s ≤ sortKey t) :=
  ⟨fun a b h1 h2 => by
    apply tabIdx_inj
    rw [← sortKey_eq_tabIdx, ← sortKey_eq_tabIdx]
    exact le_antisymm h1 h2⟩

theorem tabOrder_sorted :
    List.Sorted (fun s t => sortKey s ≤ sortKey t) tabOrderTabs := by
  have h : List.Sorted (fun s t : Tab => tabIdx s ≤ tabIdx t) tabOrderTabs := by
    decide
  exact h.imp (fun {a b} hab => by
    rw [sortKey_eq_tabIdx, sortKey_eq_tabIdx]; exact hab)

theorem assembled_sorted (l : List Tab) :
    List.Sorted (fun s t => sortKey s ≤ sortKey t) (assembleSheets l) := by
  have h := @List.sorted_mergeSort Tab
    (fun s t : Tab => decide (sortKey s ≤ sortKey t))
    (fun a b c h1 h2 => by
      simp only [decide_eq_true_eq] at h1 h2 ⊢
      exact le_trans h1 h2)
    (fun a b => by
      simp only [Bool.or_eq_true, decide_eq_true_eq]
      exact Nat.le_total (sortKey a) (sortKey b))
    l
  exact h.imp (fun {a b} hab => by
    exact of_decide_eq_true hab)

theorem assemble_tabOrder_fixed : assembleSheets tabOrderTabs = tabOrderTabs :=
  List.eq_of_perm_of_sorted (List.mergeSort_perm tabOrderTabs _)
    (assembled_sorted tabOrderTabs) tabOrder_sorted

/-- C10: whatever answers mapping is passed to the assumption resolver —
including mappings that mention the keys `use_mid_year_convention` or
`projection_years` — the resulting record always has the mid-year convention
on and exactly five projection years; the intake interface cannot change
these two model switches. -/
theorem resolver_fixes_model_switches
    (fin : CompanyFinancials) (answers : Answers) :
    (createAssumptionsFromAnswers fin answers).use_mid_year_convention = true ∧
    (createAssumptionsFromAnswers fin answers).projection_years = 5 :=
  ⟨rfl, rfl⟩

/-- C7 counterexample: on a snapshot with an empty historical revenue series
the resolver does not fail — it returns a full assumption record whose base
revenue is the degenerate value 0. -/
theorem resolver_empty_revenue_record_cex :
    emptyRevenueSnapshot.revenue = [] ∧
    (createAssumptionsFromAnswers emptyRevenueSnapshot
      ([] : Answers)).base_revenue = 0 :=
  ⟨rfl, rfl⟩

/-- C7 amended: given any snapshot with an empty revenue series, the resolver
still produces an assumption record, silently defaulting base revenue to 0;
the `DataUnavailable` hard failure exists only upstream in `SECFetcher.fetch`,
which returns no snapshot at all when it finds no revenue data. -/
theorem resolver_empty_revenue_defaults_zero
    (fin : CompanyFinancials) (answers : Answers) (h : fin.revenue = []) :
    (createAssumptionsFromAnswers fin answers).base_revenue = 0 := by
  simp [createAssumptionsFromAnswers, h]

theorem resolver_empty_revenue_defaults_zero_witness :
    emptyRevenueSnapshot.revenue = [] ∧
    (createAssumptionsFromAnswers emptyRevenueSnapshot
      ([("tax_rate", 0.3)] : Answers)).base_revenue = 0 :=
  ⟨rfl, resolver_empty_revenue_defaults_zero emptyRevenueSnapshot _ rfl⟩

/-- C6 counterexample: resolving a name never registered in the registry
returns the empty string, and the Inputs_Index builder masks it as an
em-dash label instead of aborting the build. -/
theorem unregistered_ref_masked_blank_cex :
    ref ([] : CellRefs) "base_revenue" = "" ∧
    inputsIndexCell ([] : CellRefs) "Key_Assumptions" "base_revenue" = "—" :=
  ⟨rfl, rfl⟩

/-- C6 amended: `_ref` on a name absent from the registry silently yields the
empty string, and the Inputs_Index sheet then writes the placeholder label
"—" for that row; the build continues, no unresolved signal is raised. -/
theorem unregistered_ref_returns_blank
    (refs : CellRefs) (sheet name : String)
    (h : List.lookup name (refs : List (String × String)) = none) :
    ref refs name = "" ∧ inputsIndexCell refs sheet name = "—" := by
  constructor
  · simp [ref, h]
  · simp [inputsIndexCell, ref, h]

theorem unregistered_ref_returns_blank_witness :
    List.lookup "wacc" ([("base_revenue", "B7")] : List (String × String))
      = none ∧
    ref ([("base_revenue", "B7")] : CellRefs) "wacc" = "" :=
  ⟨rfl, (unregistered_ref_returns_blank
    ([("base_revenue", "B7")] : CellRefs) "WACC" "wacc" rfl).1⟩

/-- C4 counterexample: with zero shares outstanding the diluted share count is
zero, and the engine's implied share price is the plain numeric value 0 — an
ordinary number, not a sentinel "undefined" result. -/
theorem price_zero_shares_is_plain_zero_cex :
    Engine.dilutedShares recC4 = 0 ∧ Engine.priceGordon recC4 = 0 := by
  constructor
  · norm_num [Engine.dilutedShares, recC4, flatRec]
  · have h : Engine.dilutedShares recC4 = 0 := by
      norm_num [Engine.dilutedShares, recC4, flatRec]
    rw [Engine.priceGordon, if_neg]
    rw [h]
    exact lt_irrefl 0

/-- C4 amended: whenever the diluted share count is not positive (in
particular when it is zero), the engine neither throws nor produces an
infinite or NaN value: both implied share prices are returned as the ordinary
numeric value 0, with no sentinel marking the field undefined. -/
theorem price_zero_on_nonpositive_diluted_shares
    (a : DCFAssumptions) (h : ¬ (0 < Engine.dilutedShares a)) :
    Engine.priceGordon a = 0 ∧ Engine.priceExit a = 0 := by
  constructor
  · rw [Engine.priceGordon, if_neg h]
  · rw [Engine.priceExit, if_neg h]

theorem price_zero_on_nonpositive_diluted_shares_witness :
    ¬ (0 < Engine.dilutedShares recC4w) ∧ Engine.priceGordon recC4w = 0 :=
  ⟨by norm_num [Engine.dilutedShares, recC4w, flatRec],
   (price_zero_on_nonpositive_diluted_shares recC4w
     (by norm_num [Engine.dilutedShares, recC4w, flatRec])).1⟩

/-- C9: for any build whose sheets are the thirty canonical tabs in any
order, the assembler emits them in the fixed canonical tab order — Cover
first, the validation-checks sheet last, thirty tabs, titles exactly
`TAB_ORDER` — designates Cover as the active view, and assembling the
already-assembled set again changes nothing. -/
theorem assembler_canonical_order
    (sheets : List Tab) (h : sheets.Perm tabOrderTabs) :
    assembleSheets sheets = tabOrderTabs ∧
    (assembleSheets sheets).map Tab.title = TAB_ORDER ∧
    (assembleSheets sheets).length = 30 ∧
    (assembleSheets sheets).head? = some Tab.cover ∧
    (assembleSheets sheets).getLast? = some Tab.chartsChecks ∧
    assembleSheets (assembleSheets sheets) = assembleSheets sheets ∧
    activeSheet = Tab.cover := by
  have hperm : (assembleSheets sheets).Perm tabOrderTabs :=
    (List.mergeSort_perm sheets _).trans h
  have heq : assembleSheets sheets = tabOrderTabs :=
    List.eq_of_perm_of_sorted hperm (assembled_sorted sheets) tabOrder_sorted
  refine ⟨heq, ?_, ?_, ?_, ?_, ?_, rfl⟩
  · rw [heq]; rfl
  · rw [heq]; rfl
  · rw [heq]; rfl
  · rw [heq]; rfl
  · rw [heq]; exact assemble_tabOrder_fixed

theorem assembler_canonical_order_witness :
    (tabOrderTabs.reverse.Perm tabOrderTabs) ∧
    assembleSheets tabOrderTabs.reverse = tabOrderTabs :=
  ⟨List.reverse_perm tabOrderTabs,
   (assembler_canonical_order tabOrderTabs.reverse
     (List.reverse_perm tabOrderTabs)).1⟩

/-- C1: the two representations disagree. On a record whose EBITDA margin
glides from 25% to 28%, the projection engine's year-5 margin is 28% and its
year-5 EBITDA is 280, but the workbook's EBITDA_Bridge links every year's
margin cell to the single base-margin input, so evaluating its emitted
formulas gives year-5 margin 25% and EBITDA 250: the formula graph does not
reproduce the engine's margin glide. -/
theorem dual_representation_margin_divergence :
    Engine.margin recC1 5 = 0.28 ∧
    Workbook.margin recC1 5 = 0.25 ∧
    Engine.ebitda recC1 5 = 280 ∧
    Workbook.ebitda recC1 5 = 250 ∧
    Workbook.ebitda recC1 5 ≠ Engine.ebitda recC1 5 := by
  refine ⟨?_, ?_, ?_, ?_, ?_⟩
  · norm_num [Engine.margin, Engine.marginDelta, recC1, flatRec]
  · norm_num [Workbook.margin, recC1, flatRec]
  · norm_num [Engine.ebitda, Engine.margin, Engine.marginDelta,
      Engine.revenue, Engine.growth, recC1, flatRec]
  · norm_num [Workbook.ebitda, Workbook.margin, Workbook.revenue,
      Engine.growth, recC1, flatRec]
  · have h1 : Engine.ebitda recC1 5 = 280 := by
      norm_num [Engine.ebitda, Engine.margin, Engine.marginDelta,
        Engine.revenue, Engine.growth, recC1, flatRec]
    have h2 : Workbook.ebitda recC1 5 = 250 := by
      norm_num [Workbook.ebitda, Workbook.margin, Workbook.revenue,
        Engine.growth, recC1, flatRec]
    rw [h1, h2]
    norm_num

/-- C2: the projection engine does not clamp taxes at zero for loss years. On
a record with EBIT = -100 and a 25% tax rate, the engine computes
NOPAT = EBIT × (1 - tax) = -75, i.e. effective taxes of -25 — losses are
tax-benefited — whereas the claimed rule Taxes = max(0, EBIT) × tax would
give NOPAT = -100. The workbook's Taxes sheet, by contrast, does clamp:
its emitted `-MAX(0, EBIT) * tax` evaluates to 0 there. -/
theorem engine_taxes_not_clamped_at_loss :
    Engine.ebit recC2 1 = -100 ∧
    Engine.nopat recC2 1 = -75 ∧
    Engine.nopat recC2 1 ≠
      Engine.ebit recC2 1 - max 0 (Engine.ebit recC2 1) * recC2.tax_rate ∧
    Workbook.taxesRow recC2 1 = 0 := by
  have hebit : Engine.ebit recC2 1 = -100 := by
    norm_num [Engine.ebit, Engine.ebitda, Engine.margin, Engine.marginDelta,
      Engine.da, Engine.revenue, Engine.growth, recC2, flatRec]
  have hnopat : Engine.nopat recC2 1 = -75 := by
    have h : Engine.nopat recC2 1 = Engine.ebit recC2 1 * (1 - recC2.tax_rate) :=
      rfl
    rw [h, hebit]
    norm_num [recC2, flatRec]
  refine ⟨hebit, hnopat, ?_, ?_⟩
  · rw [hnopat, hebit]
    norm_num [recC2, flatRec]
  · norm_num [Workbook.taxesRow, Workbook.ebit, Workbook.ebitda,
      Workbook.margin, Workbook.daRow, Workbook.revenue, Engine.growth,
      recC2, flatRec]

/-- C3: with terminal growth 12% above the 10% WACC, the engine's validation
list does report the "WACC > Terminal Growth" check as failed, but the Gordon
terminal value is not an explicit undefined value: the run silently computes
the plain negative number -16800. And when terminal growth exactly equals
WACC the division `fcf[5]*(1+g)/(wacc-g)` has a zero denominator, so the
Python run raises `ZeroDivisionError` and returns no result at all instead of
an annotated result. -/
theorem gordon_tv_unflagged_on_invalid_growth :
    Engine.waccGtGrowthStatus recC3a = "fail" ∧
    Engine.tvGordonRun recC3a = some (-16800) ∧
    ((-16800 : ℝ) < 0) ∧
    Engine.tvGordonRun recC3b = none := by
  have hwacc : Engine.wacc recC3a = 0.1 := by
    norm_num [Engine.wacc, Engine.equityWeight, Engine.debtWeight,
      Engine.costOfEquity, Engine.leveredBeta, Engine.afterTaxCostOfDebt,
      recC3a, flatRec]
  have hwaccb : Engine.wacc recC3b = 0.1 := by
    norm_num [Engine.wacc, Engine.equityWeight, Engine.debtWeight,
      Engine.costOfEquity, Engine.leveredBeta, Engine.afterTaxCostOfDebt,
      recC3b, flatRec]
  have hfcf : Engine.fcf recC3a 5 = 300 := by
    norm_num [Engine.fcf, Engine.nopat, Engine.ebit, Engine.ebitda,
      Engine.margin, Engine.marginDelta, Engine.da, Engine.capex,
      Engine.nwcChange, Engine.nwcPct, Engine.revenue, Engine.growth,
      recC3a, flatRec]
  refine ⟨?_, ?_, by norm_num, ?_⟩
  · rw [Engine.waccGtGrowthStatus, if_neg]
    rw [hwacc]
    norm_num [recC3a, flatRec]
  · rw [Engine.tvGordonRun, if_neg]
    · rw [Engine.tvGordon, hwacc, hfcf]
      norm_num [recC3a, flatRec]
    · rw [hwacc]
      norm_num [recC3a, flatRec]
  · rw [Engine.tvGordonRun, if_pos]
    rw [hwaccb]
    norm_num [recC3b, flatRec]

/-- C5 counterexample: on a record with the mid-year convention on (the intake
always sets it on), the present value of the Gordon terminal value is
`tv / (1+WACC)^5` and differs from `tv * discount_factor[5]`, the mid-year
factor `1/(1+WACC)^4.5` that governs the yearly FCF discounting. -/
theorem tv_discount_ignores_mid_year_cex :
    Engine.pvTvGordon recC5 ≠
      Engine.tvGordon recC5 * Engine.discountFactor recC5 5 := by
  have hwacc : Engine.wacc recC5 = 0.1 := by
    norm_num [Engine.wacc, Engine.equityWeight, Engine.debtWeight,
      Engine.costOfEquity, Engine.leveredBeta, Engine.afterTaxCostOfDebt,
      recC5, flatRec]
  have hfcf : Engine.fcf recC5 5 = 300 := by
    norm_num [Engine.fcf, Engine.nopat, Engine.ebit, Engine.ebitda,
      Engine.margin, Engine.marginDelta, Engine.da, Engine.capex,
      Engine.nwcChange, Engine.nwcPct, Engine.revenue, Engine.growth,
      recC5, flatRec]
  have htv : Engine.tvGordon recC5 = 3825 := by
    have h : Engine.tvGordon recC5 = Engine.fcf recC5 5 *
        (1 + recC5.terminal_growth) /
        (Engine.wacc recC5 - recC5.terminal_growth) := rfl
    rw [h, hfcf, hwacc]
    norm_num [recC5, flatRec]
  have hdp : Engine.discountPeriod recC5 5 = 4.5 := by
    rw [Engine.discountPeriod, if_pos (show recC5.use_mid_year_convention = true
      from rfl)]
    norm_num
  have hdf : Engine.discountFactor recC5 5 = 1 / (1.1 : ℝ) ^ (4.5 : ℝ) := by
    rw [Engine.discountFactor, hdp, hwacc]
    norm_num
  have hpv : Engine.pvTvGordon recC5 = 3825 / (1.1 : ℝ) ^ (5 : ℕ) := by
    rw [Engine.pvTvGordon, htv, hwacc]
    norm_num
  rw [hpv, htv, hdf, mul_one_div]
  have h5 : (1.1 : ℝ) ^ (4.5 : ℝ) < (1.1 : ℝ) ^ (5 : ℕ) := by
    have h := @Real.rpow_lt_rpow_of_exponent_lt (1.1 : ℝ) (4.5 : ℝ) (5 : ℝ)
      (by norm_num) (by norm_num)
    have hcast : (1.1 : ℝ) ^ (5 : ℝ) = (1.1 : ℝ) ^ (5 : ℕ) := by
      rw [← Real.rpow_natCast (1.1 : ℝ) 5]
      norm_num
    rwa [hcast] at h
  have hpos : (0 : ℝ) < (1.1 : ℝ) ^ (4.5 : ℝ) :=
    Real.rpow_pos_of_pos (by norm_num) _
  exact ne_of_lt (div_lt_div_of_pos_left (by norm_num) hpos h5)

/-- C5 amended: both terminal values are discounted by the full-period factor
`1/(1+WACC)^5` unconditionally — the sheet's emitted exponent
`IF(mid_year=1,5,5)` is 5 in both branches — so the present value of the
terminal value coincides with `tv * discount_factor[5]` exactly when the
mid-year convention is off; under the mid-year convention the terminal-value
discounting does not follow the yearly FCF convention. -/
theorem tv_discounted_at_full_period_five
    (a : DCFAssumptions) (h : a.use_mid_year_convention = false) :
    Engine.pvTvGordon a = Engine.tvGordon a * Engine.discountFactor a 5 ∧
    Engine.pvTvExit a = Engine.tvExit a * Engine.discountFactor a 5 := by
  have hdf : Engine.discountFactor a 5 = 1 / (1 + Engine.wacc a) ^ (5 : ℕ) := by
    rw [Engine.discountFactor, Engine.discountPeriod, if_neg (by simp [h])]
    rw [show ((5 : ℕ) : ℝ) = (((5 : ℕ) : ℕ) : ℝ) from rfl, Real.rpow_natCast]
  rw [hdf, Engine.pvTvGordon, Engine.pvTvExit, mul_one_div, mul_one_div]
  exact ⟨rfl, rfl⟩

theorem tv_discounted_at_full_period_five_witness :
    recC5w.use_mid_year_convention = false ∧
    Engine.pvTvGordon recC5w =
      Engine.tvGordon recC5w * Engine.discountFactor recC5w 5 :=
  ⟨rfl, (tv_discounted_at_full_period_five recC5w rfl).1⟩

/-- C8 counterexample: on a record whose year-5 FCF is -100, raising terminal
growth from 2% to 4% (WACC 10% fixed, still above growth) strictly decreases
both the Gordon terminal value and the Gordon implied share price. -/
theorem gordon_not_monotone_negative_fcf_cex :
    recC8.terminal_growth < (withTerminalGrowth recC8 0.04).terminal_growth ∧
    (withTerminalGrowth recC8 0.04).terminal_growth <
      Engine.wacc (withTerminalGrowth recC8 0.04) ∧
    Engine.fcf recC8 5 < 0 ∧
    Engine.tvGordon (withTerminalGrowth recC8 0.04) < Engine.tvGordon recC8 ∧
    Engine.priceGordon (withTerminalGrowth recC8 0.04) <
      Engine.priceGordon recC8 := by
  have hwacc : Engine.wacc recC8 = 0.1 := by
    norm_num [Engine.wacc, Engine.equityWeight, Engine.debtWeight,
      Engine.costOfEquity, Engine.leveredBeta, Engine.afterTaxCostOfDebt,
      recC8, flatRec]
  have hwb : Engine.wacc (withTerminalGrowth recC8 0.04) = Engine.wacc recC8 :=
    rfl
  have hfcf : Engine.fcf recC8 5 = -100 := by
    norm_num [Engine.fcf, Engine.nopat, Engine.ebit, Engine.ebitda,
      Engine.margin, Engine.marginDelta, Engine.da, Engine.capex,
      Engine.nwcChange, Engine.nwcPct, Engine.revenue, Engine.growth,
      recC8, flatRec]
  have hfb : Engine.fcf (withTerminalGrowth recC8 0.04) 5 =
      Engine.fcf recC8 5 := rfl
  have htva : Engine.tvGordon recC8 = -1275 := by
    have h : Engine.tvGordon recC8 = Engine.fcf recC8 5 *
        (1 + recC8.terminal_growth) /
        (Engine.wacc recC8 - recC8.terminal_growth) := rfl
    rw [h, hfcf, hwacc]
    norm_num [recC8, flatRec]
  have htvb : Engine.tvGordon (withTerminalGrowth recC8 0.04) = -5200 / 3 := by
    have h : Engine.tvGordon (withTerminalGrowth recC8 0.04) =
        Engine.fcf (withTerminalGrowth recC8 0.04) 5 *
        (1 + (withTerminalGrowth recC8 0.04).terminal_growth) /
        (Engine.wacc (withTerminalGrowth recC8 0.04) -
          (withTerminalGrowth recC8 0.04).terminal_growth) := rfl
    rw [h, hfb, hfcf, hwb, hwacc,
      show (withTerminalGrowth recC8 0.04).terminal_growth = 0.04 from rfl]
    norm_num
  have hds : Engine.dilutedShares recC8 = 100 := by
    norm_num [Engine.dilutedShares, recC8, flatRec]
  have hdsb : Engine.dilutedShares (withTerminalGrowth recC8 0.04) =
      Engine.dilutedShares recC8 := rfl
  have hpos : (0 : ℝ) < Engine.dilutedShares recC8 := by
    rw [hds]; norm_num
  refine ⟨?_, ?_, ?_, ?_, ?_⟩
  · show recC8.terminal_growth < (0.04 : ℝ)
    norm_num [recC8, flatRec]
  · rw [show (withTerminalGrowth recC8 0.04).terminal_growth = 0.04 from rfl,
      hwb, hwacc]
    norm_num
  · rw [hfcf]; norm_num
  · rw [htva, htvb]; norm_num
  · have hpv : Engine.pvTvGordon (withTerminalGrowth recC8 0.04) <
        Engine.pvTvGordon recC8 := by
      rw [Engine.pvTvGordon, Engine.pvTvGordon, hwb, hwacc, htva, htvb]
      rw [div_lt_div_iff_of_pos_right (by norm_num : (0:ℝ) < (1 + 0.1) ^ (5:ℕ))]
      norm_num
    have hS : Engine.sumPvFcf (withTerminalGrowth recC8 0.04) =
        Engine.sumPvFcf recC8 := rfl
    have hnd : Engine.netDebt (withTerminalGrowth recC8 0.04) =
        Engine.netDebt recC8 := rfl
    have hmi : (withTerminalGrowth recC8 0.04).minority_interest =
        recC8.minority_interest := rfl
    have heq : Engine.equityGordon (withTerminalGrowth recC8 0.04) <
        Engine.equityGordon recC8 := by
      simp only [Engine.equityGordon, Engine.evGordon]
      rw [hS, hnd, hmi]
      linarith [hpv]
    have hp1 : Engine.priceGordon recC8 =
        Engine.equityGordon recC8 / Engine.dilutedShares recC8 := by
      rw [Engine.priceGordon, if_pos hpos]
    have hp2 : Engine.priceGordon (withTerminalGrowth recC8 0.04) =
        Engine.equityGordon (withTerminalGrowth recC8 0.04) /
          Engine.dilutedShares recC8 := by
      rw [Engine.priceGordon, if_pos (show
        (0 : ℝ) < Engine.dilutedShares (withTerminalGrowth recC8 0.04)
        from hdsb ▸ hpos), hdsb]
    rw [hp1, hp2, div_lt_div_iff_of_pos_right hpos]
    exact heq

/-- C8 amended: with year-5 FCF positive, a positive diluted share count, and
`1 + WACC` positive, strictly raising terminal growth toward a fixed WACC that
stays above it strictly raises the Gordon terminal value and the Gordon
implied share price; the monotonicity claimed for every record fails when
year-5 FCF is negative (it then strictly decreases, see the counterexample). -/
theorem gordon_strictly_monotone_in_terminal_growth
    (a : DCFAssumptions) (g : ℝ)
    (h1 : a.terminal_growth < g) (h2 : g < Engine.wacc a)
    (hw : 0 < 1 + Engine.wacc a) (hf : 0 < Engine.fcf a 5)
    (hd : 0 < Engine.dilutedShares a) :
    Engine.tvGordon a < Engine.tvGordon (withTerminalGrowth a g) ∧
    Engine.priceGordon a < Engine.priceGordon (withTerminalGrowth a g) := by
  have hwb : Engine.wacc (withTerminalGrowth a g) = Engine.wacc a := rfl
  have hfb : Engine.fcf (withTerminalGrowth a g) 5 = Engine.fcf a 5 := rfl
  have hgb : (withTerminalGrowth a g).terminal_growth = g := rfl
  have hda : 0 < Engine.wacc a - a.terminal_growth := by linarith
  have hdb : 0 < Engine.wacc a - g := by linarith
  have htv : Engine.tvGordon a < Engine.tvGordon (withTerminalGrowth a g) := by
    rw [Engine.tvGordon, Engine.tvGordon, hwb, hfb, hgb]
    rw [div_lt_div_iff₀ hda hdb]
    nlinarith [mul_pos (mul_pos hf (sub_pos.2 h1)) hw]
  have hpv : Engine.pvTvGordon a <
      Engine.pvTvGordon (withTerminalGrowth a g) := by
    rw [Engine.pvTvGordon, Engine.pvTvGordon, hwb]
    rw [div_lt_div_iff_of_pos_right (pow_pos hw 5)]
    exact htv
  have hS : Engine.sumPvFcf (withTerminalGrowth a g) = Engine.sumPvFcf a := rfl
  have hnd : Engine.netDebt (withTerminalGrowth a g) = Engine.netDebt a := rfl
  have hmi : (withTerminalGrowth a g).minority_interest =
      a.minority_interest := rfl
  have heq : Engine.equityGordon a <
      Engine.equityGordon (withTerminalGrowth a g) := by
    simp only [Engine.equityGordon, Engine.evGordon]
    rw [hS, hnd, hmi]
    linarith [hpv]
  have hdsb : Engine.dilutedShares (withTerminalGrowth a g) =
      Engine.dilutedShares a := rfl
  refine ⟨htv, ?_⟩
  rw [Engine.priceGordon, Engine.priceGordon, if_pos hd,
    if_pos (show (0 : ℝ) < Engine.dilutedShares (withTerminalGrowth a g)
      from hdsb ▸ hd), hdsb]
  rw [div_lt_div_iff_of_pos_right hd]
  exact heq

theorem gordon_strictly_monotone_in_terminal_growth_witness :
    (flatRec.terminal_growth < 0.03 ∧ (0.03 : ℝ) < Engine.wacc flatRec ∧
     0 < 1 + Engine.wacc flatRec ∧ 0 < Engine.fcf flatRec 5 ∧
     0 < Engine.dilutedShares flatRec) ∧
    Engine.tvGordon flatRec < Engine.tvGordon (withTerminalGrowth flatRec 0.03) := by
  have hwacc : Engine.wacc flatRec = 0.1 := by
    norm_num [Engine.wacc, Engine.equityWeight, Engine.debtWeight,
      Engine.costOfEquity, Engine.leveredBeta, Engine.afterTaxCostOfDebt,
      flatRec]
  have hfcf : Engine.fcf flatRec 5 = 300 := by
    norm_num [Engine.fcf, Engine.nopat, Engine.ebit, Engine.ebitda,
      Engine.margin, Engine.marginDelta, Engine.da, Engine.capex,
      Engine.nwcChange, Engine.nwcPct, Engine.revenue, Engine.growth,
      flatRec]
  have hh1 : flatRec.terminal_growth < (0.03 : ℝ) := by norm_num [flatRec]
  have hh2 : (0.03 : ℝ) < Engine.wacc flatRec := by rw [hwacc]; norm_num
  have hh3 : (0 : ℝ) < 1 + Engine.wacc flatRec := by rw [hwacc]; norm_num
  have hh4 : (0 : ℝ) < Engine.fcf flatRec 5 := by rw [hfcf]; norm_num
  have hh5 : (0 : ℝ) < Engine.dilutedShares flatRec := by
    norm_num [Engine.dilutedShares, flatRec]
  exact ⟨⟨hh1, hh2, hh3, hh4, hh5⟩,
    (gordon_strictly_monotone_in_terminal_growth flatRec 0.03
      hh1 hh2 hh3 hh4 hh5).1⟩

end
